import Mathlib

/-!
Verification of the weather-agent orchestration service of this repository
(`app/agents/services.py`, `app/agents/models.py`) against its natural-language
specification.  The Python code is shallowly embedded: Python dict/list/str/
number values become the `PyVal` inductive, machine floats become `ℚ` (all
thresholds in the source are decimal literals, exactly representable),
stateful persistence becomes explicit state passing, and the external
collaborators (the Gemini model endpoint, the geocoding and weather HTTP
APIs, the system clock, and the Python standard-library parsers `json.loads`,
`ast.literal_eval` and `datetime.fromisoformat`) become oracle fields of an
explicit `Env` record, as the spec treats them as black boxes.
-/

/-- Characters stripped by Python `str.strip()` with no argument
(the ASCII whitespace characters; the full Unicode set is not needed here). -/
def pyIsSpace (c : Char) : Bool :=
  c = ' ' ∨ c = '\t' ∨ c = '\n' ∨ c = '\x0d' ∨ c = '\x0b' ∨ c = '\x0c'

/-- Python `str.strip()`: drop leading and trailing whitespace. -/
def pyStrip (s : String) : String :=
  String.mk (((s.toList.dropWhile pyIsSpace).reverse.dropWhile pyIsSpace).reverse)

/-- Contiguous-infix test on character lists (Python `needle in haystack`). -/
def listInfixOf (n : List Char) : List Char → Bool
  | [] => n.isEmpty
  | c :: rest => n.isPrefixOf (c :: rest) || listInfixOf n rest

/-- Python substring containment `needle in hay`. -/
def substrOf (needle hay : String) : Bool :=
  listInfixOf needle.toList hay.toList

/-- Python `any(word in hay for word in words)`. -/
def containsAny (hay : String) (words : List String) : Bool :=
  words.any (fun w => substrOf w hay)

/-- Python `str.lower()` on one character, covering ASCII letters and the
uppercase Spanish letters that occur in the source keyword lists (Python
lowercases all of Unicode; only these can affect the embedded code). -/
def pyLowerChar (c : Char) : Char :=
  if 'A' ≤ c ∧ c ≤ 'Z' then Char.ofNat (c.toNat + 32)
  else if c = 'Á' then 'á'
  else if c = 'É' then 'é'
  else if c = 'Í' then 'í'
  else if c = 'Ó' then 'ó'
  else if c = 'Ú' then 'ú'
  else if c = 'Ñ' then 'ñ'
  else if c = 'Ü' then 'ü'
  else c

/-- Python `str.lower()`. -/
def pyLower (s : String) : String :=
  String.mk (s.toList.map pyLowerChar)

mutual

/-- Shallow embedding of JSON-compatible Python values (dict, list, str,
number, bool, None).  Numbers are embedded as `ℚ`. -/
inductive PyVal where
  | none : PyVal
  | bool : Bool → PyVal
  | num : ℚ → PyVal
  | str : String → PyVal
  | list : PyList → PyVal
  | dict : PyDict → PyVal
deriving DecidableEq

/-- A Python list of `PyVal`. -/
inductive PyList where
  | nil : PyList
  | cons : PyVal → PyList → PyList
deriving DecidableEq

/-- A Python dict with string keys and `PyVal` values. -/
inductive PyDict where
  | nil : PyDict
  | cons : String → PyVal → PyDict → PyDict
deriving DecidableEq

end

/-- Build a `PyList` from a Lean list. -/
def pyListOf : List PyVal → PyList
  | [] => .nil
  | v :: rest => .cons v (pyListOf rest)

/-- Build a `PyDict` from a Lean association list. -/
def pyDictOf : List (String × PyVal) → PyDict
  | [] => .nil
  | (k, v) :: rest => .cons k v (pyDictOf rest)

/-- First value bound to a key (Python dict lookup; keys are unique in every
dict the embedded code builds). -/
def PyDict.lookup : PyDict → String → Option PyVal
  | .nil, _ => Option.none
  | .cons k v rest, key => if k = key then some v else rest.lookup key

/-- Python `key in d` for a dict. -/
def PyDict.hasKey (d : PyDict) (key : String) : Bool :=
  (d.lookup key).isSome

/-- Python truthiness of an embedded value. -/
def pyTruthy : PyVal → Bool
  | .none => false
  | .bool b => b
  | .num q => q ≠ 0
  | .str s => ¬ s.isEmpty
  | .list .nil => false
  | .list (.cons _ _) => true
  | .dict .nil => false
  | .dict (.cons _ _ _) => true

/-- Python `isinstance(v, dict)`. -/
def isPyDict : PyVal → Bool
  | .dict _ => true
  | _ => false

/-- Python `d.get(k)` on a tool-argument dict: missing key gives `None`. -/
def pyArgGet (args : PyDict) (key : String) : PyVal :=
  (args.lookup key).getD .none

/-- The rational 0.2 (the snow precipitation threshold in the source). -/
def qPointTwo : ℚ := ⟨1, 5, by norm_num, by norm_num⟩

/-- The rational 0.5 (the rainy precipitation threshold in the source). -/
def qPointFive : ℚ := ⟨1, 2, by norm_num, by norm_num⟩

/-- Keyword list of the success branch of `_determine_mood`. -/
def successWords : List String := ["guardado", "evento guardado", "registrado", "✅"]

/-- Keyword list of the loading branch of `_determine_mood`. -/
def loadingWords : List String := ["consultando", "obteniendo", "buscando", "procesando"]

/-- Keyword list of the low-temperature snow branch of `_determine_mood`. -/
def snowTempWords : List String := ["nieve", "nevada", "nevado", "congelado", "helado"]

/-- Fallback keyword list for snow. -/
def fallbackSnowWords : List String :=
  ["nieve", "nevada", "nevando", "neva", "granizo", "❄️", "⛄", "snowfall"]

/-- Fallback keyword list for stormy. -/
def fallbackStormyWords : List String :=
  ["tormenta", "vendaval", "ráfagas", "viento fuerte", "⛈️", "peligro"]

/-- Fallback keyword list for rainy. -/
def fallbackRainyWords : List String :=
  ["lluvia", "llover", "precipitación", "mojado", "🌧️", "paraguas"]

/-- Fallback keyword list for sunny. -/
def fallbackSunnyWords : List String :=
  ["soleado", "despejado", "perfecto", "excelente", "ideal", "☀️", "sol"]

/-- Fallback keyword list for cloudy. -/
def fallbackCloudyWords : List String := ["nublado", "nubes", "cubierto", "gris", "☁️"]

/-- Fallback keyword list for hot. -/
def fallbackHotWords : List String := ["calor", "caluroso", "sofocante", "muy caliente", "🔥"]

/-- Fallback keyword list for cold. -/
def fallbackColdWords : List String := ["frío", "helado", "congelante", "muy frío", "glacial"]

/-- The ten mood values the classifier can return (source docstring). -/
def moodValues : List String :=
  ["sunny", "cloudy", "rainy", "stormy", "cold", "hot", "snow", "neutral", "success", "loading"]

/-- The five weather metrics `_determine_mood` extracts from the payload.
Each is `none` exactly when the corresponding Python local stays `None`
(the payload is restricted to numeric-or-missing values by
`wellFormedPayload`, under which Python would not compare a non-number). -/
structure Extracted where
  temperature : Option ℚ := Option.none
  precipitation : Option ℚ := Option.none
  windSpeed : Option ℚ := Option.none
  probSnowfall : Option ℚ := Option.none
  snowDepth : Option ℚ := Option.none
deriving DecidableEq

/-- Numeric view of an optional extracted value: `dates[0].get("value")`
gives `None` for a missing key, and a stored `None` behaves the same as an
absent metric in every later `is not None` guard. -/
def toNumOpt : Option PyVal → Option ℚ
  | some (.num q) => some q
  | _ => Option.none

/-- Python `param.get("parameter", "")` (restricted to string values by
`wellFormedPayload`; Python would raise on `in` over a non-string). -/
def paramNameOf (kvs : PyDict) : String :=
  match kvs.lookup "parameter" with
  | some (.str s) => s
  | _ => ""

/-- One assignment step of the extraction loop of `_determine_mood`:
the substring-matching if/elif chain over the parameter name. -/
def moodAssign (e : Extracted) (name : String) (v : Option ℚ) : Extracted :=
  if substrOf "t_2m:C" name then { e with temperature := v }
  else if substrOf "precip" name && substrOf "mm" name then { e with precipitation := v }
  else if substrOf "wind_speed" name then { e with windSpeed := v }
  else if substrOf "prob_snowfall" name then { e with probSnowfall := v }
  else if substrOf "snow_depth" name then { e with snowDepth := v }
  else e

/-- The extraction loop of `_determine_mood` over `weather_data["data"]`:
only dict entries with a nonempty list of coordinates whose head has a
nonempty list of dates contribute; the first date value is taken and later
parameters overwrite earlier ones. -/
def moodExtractLoop : PyList → Extracted → Extracted
  | .nil, e => e
  | .cons p rest, e =>
    moodExtractLoop rest
      (match p with
       | .dict kvs =>
         (match kvs.lookup "coordinates" with
          | some (.list (.cons c _)) =>
            (match c with
             | .dict ckvs =>
               (match ckvs.lookup "dates" with
                | some (.list (.cons d _)) =>
                  (match d with
                   | .dict dkvs => moodAssign e (paramNameOf kvs) (toNumOpt (dkvs.lookup "value"))
                   | _ => e)
                | _ => e)
             | _ => e)
          | _ => e)
       | _ => e)

/-- Metric extraction of `_determine_mood`: runs only when the payload is a
truthy dict containing the key `data`; a non-list `data` value that Python
could still iterate (dict keys or str characters) assigns nothing. -/
def extractWeather : Option PyVal → Extracted
  | some (.dict kvs) =>
    if pyTruthy (.dict kvs) then
      match kvs.lookup "data" with
      | some (.list ps) => moodExtractLoop ps {}
      | _ => {}
    else {}
  | _ => {}

/-- Payloads on which the embedded extraction agrees with Python exactly:
`data`, when present and iterable, must have dict entries with string
parameter names, dict first coordinates, dict first dates and
numeric-or-missing values (the shape of the weather provider interface);
on anything else Python would raise inside `_determine_mood`. -/
def wfDates : PyList → Bool
  | .nil => true
  | .cons d _ =>
    match d with
    | .dict dkvs =>
      (match dkvs.lookup "value" with
       | Option.none => true
       | some .none => true
       | some (.num _) => true
       | some _ => false)
    | _ => false

/-- Well-formedness of one coordinates list (see `wfDates`). -/
def wfCoords : PyList → Bool
  | .nil => true
  | .cons c _ =>
    match c with
    | .dict ckvs =>
      (match ckvs.lookup "dates" with
       | some (.list ds) => wfDates ds
       | some _ => true
       | Option.none => true)
    | _ => false

/-- Well-formedness of one parameter entry (see `wfDates`). -/
def wfParam (p : PyVal) : Bool :=
  match p with
  | .dict kvs =>
    (match kvs.lookup "parameter" with
     | Option.none => true
     | some (.str _) => true
     | some _ => false) &&
    (match kvs.lookup "coordinates" with
     | some (.list cs) => wfCoords cs
     | some _ => true
     | Option.none => true)
  | _ => true

/-- Well-formedness of the parameter list (see `wfDates`). -/
def wfParams : PyList → Bool
  | .nil => true
  | .cons p rest => wfParam p && wfParams rest

/-- Well-formedness of the whole payload argument (see `wfDates`). -/
def wellFormedPayload : Option PyVal → Bool
  | Option.none => true
  | some w =>
    match w with
    | .dict kvs =>
      (match kvs.lookup "data" with
       | some (.list ps) => wfParams ps
       | some (.dict _) => true
       | some (.str _) => true
       | some _ => false
       | Option.none => true)
    | _ => true

/-- Python `x is not None and x > c` on an optional metric. -/
def optNumGt (x : Option ℚ) (c : ℚ) : Bool :=
  match x with
  | some v => decide (c < v)
  | Option.none => false

/-- Python `x is not None and x < c` on an optional metric. -/
def optNumLt (x : Option ℚ) (c : ℚ) : Bool :=
  match x with
  | some v => decide (v < c)
  | Option.none => false

/-- Python `wind_speed and wind_speed > 40` (truthiness, then comparison). -/
def optTruthyGt40 (x : Option ℚ) : Bool :=
  match x with
  | some v => decide (v ≠ 0) && decide ((40 : ℚ) < v)
  | Option.none => false

/-- The source condition `temperature <= 0 and precipitation > 0.2`
guarded by both metrics being present. -/
def snowTempPrecip (e : Extracted) : Bool :=
  match e.temperature, e.precipitation with
  | some t, some p => decide (t ≤ 0) && decide (qPointTwo < p)
  | _, _ => false

/-- The source condition `precipitation is None or precipitation < 0.5`. -/
def lowPrecip : Option ℚ → Bool
  | Option.none => true
  | some p => decide (p < qPointFive)

/-- The keyword fallback chain of `_determine_mood` (snow, stormy, rainy,
sunny, cloudy, hot, cold, then neutral). -/
def moodFallback (ml : String) : String :=
  if containsAny ml fallbackSnowWords then "snow"
  else if containsAny ml fallbackStormyWords then "stormy"
  else if containsAny ml fallbackRainyWords then "rainy"
  else if containsAny ml fallbackSunnyWords then "sunny"
  else if containsAny ml fallbackCloudyWords then "cloudy"
  else if containsAny ml fallbackHotWords then "hot"
  else if containsAny ml fallbackColdWords then "cold"
  else "neutral"

/-- The decision chain of `_determine_mood` on the lowered message and the
extracted metrics, in source order. -/
def codeMood (ml : String) (e : Extracted) : String :=
  if containsAny ml successWords then "success"
  else if containsAny ml loadingWords then "loading"
  else if optNumGt e.snowDepth 0 then "snow"
  else if optNumGt e.probSnowfall 50 then "snow"
  else if snowTempPrecip e then "snow"
  else if optNumLt e.temperature (-2) && containsAny ml snowTempWords then "snow"
  else if optNumGt e.precipitation 5 then
    (if optTruthyGt40 e.windSpeed then "stormy" else "rainy")
  else if optNumGt e.precipitation qPointFive then "rainy"
  else if optNumGt e.windSpeed 50 then "stormy"
  else
    match e.temperature with
    | some t =>
      if decide ((35 : ℚ) < t) then "hot"
      else if decide ((18 : ℚ) ≤ t) && decide (t ≤ 28) && lowPrecip e.precipitation then "sunny"
      else moodFallback ml
    | Option.none => moodFallback ml

/-- Embedding of `WeatherAgentService._determine_mood`. -/
def determineMood (assistantMessage : String) (weatherData : Option PyVal) : String :=
  codeMood (pyLower assistantMessage) (extractWeather weatherData)

/-- Step 3 of spec section 4.3: explicit snow-depth > 0, or snow-probability
over 50 percent, or temperature at most 0 with precipitation over 0.2 mm. -/
def specSnowSignal (e : Extracted) : Bool :=
  optNumGt e.snowDepth 0 || optNumGt e.probSnowfall 50 || snowTempPrecip e

/-- Spec section 4.3 step 5 second clause: temperature between 18 and 28. -/
def tempMild : Option ℚ → Bool
  | some t => decide ((18 : ℚ) ≤ t) && decide (t ≤ 28)
  | Option.none => false

/-- Spec section 4.3 steps 3 through 7 on the extracted metrics, as written:
snow signals, then `precipitation > 5 and wind > 40` gives stormy,
`precipitation > 0.5` gives rainy, `wind > 50` gives stormy, then the
temperature thresholds, then the fallback keyword scan, then neutral. -/
def specStepsCore (ml : String) (e : Extracted) : String :=
  if specSnowSignal e then "snow"
  else if optNumGt e.precipitation 5 && optNumGt e.windSpeed 40 then "stormy"
  else if optNumGt e.precipitation qPointFive then "rainy"
  else if optNumGt e.windSpeed 50 then "stormy"
  else if optNumGt e.temperature 35 then "hot"
  else if tempMild e.temperature && lowPrecip e.precipitation then "sunny"
  else moodFallback ml

/-- The mood classifier exactly as spec section 4.3 orders it: success and
loading text markers, the three structured snow signals, the precipitation
and wind thresholds, the temperature thresholds, the fallback keyword scan,
then neutral. -/
def specMoodSeven (replyText : String) (weatherPayload : Option PyVal) : String :=
  let ml := pyLower replyText
  let e := extractWeather weatherPayload
  if containsAny ml successWords then "success"
  else if containsAny ml loadingWords then "loading"
  else specStepsCore ml e

/-- The spec priority order amended with the fourth snow rule present in the
source: temperature below minus 2 together with a snow keyword in the text
gives snow, checked after the three structured snow signals and before the
precipitation and wind thresholds. -/
def specMoodEight (replyText : String) (weatherPayload : Option PyVal) : String :=
  let ml := pyLower replyText
  let e := extractWeather weatherPayload
  if containsAny ml successWords then "success"
  else if containsAny ml loadingWords then "loading"
  else if specSnowSignal e then "snow"
  else if optNumLt e.temperature (-2) && containsAny ml snowTempWords then "snow"
  else if optNumGt e.precipitation 5 && optNumGt e.windSpeed 40 then "stormy"
  else if optNumGt e.precipitation qPointFive then "rainy"
  else if optNumGt e.windSpeed 50 then "stormy"
  else if optNumGt e.temperature 35 then "hot"
  else if tempMild e.temperature && lowPrecip e.precipitation then "sunny"
  else moodFallback ml

/-- Outcome of one call to the geocoding provider: either an exception or a
list of results, each reduced to its geometry location (lat, lng). -/
inductive GeoOutcome where
  | raise : String → GeoOutcome
  | ok : List (ℚ × ℚ) → GeoOutcome

/-- Outcome of one `requests.get` call to the weather provider: either an
exception, or a response with status code, body text, and the parsed JSON
body (`Option.none` when `response.json()` would itself raise). -/
inductive HttpOutcome where
  | raise : String → HttpOutcome
  | resp : Nat → String → Option PyVal → HttpOutcome

/-- The external collaborators of the service, passed explicitly: the
process environment variables, the system clock, the Python standard-library
parsers, and the two HTTP providers.  `jsonLoads s = Option.none` models
`json.loads` raising `JSONDecodeError`, and similarly for the others. -/
structure Env where
  googleApiKey : Option String
  googleMapsApiKey : Option String
  meteomaticsUsername : Option String
  meteomaticsPassword : Option String
  meteomaticsApiUrl : Option String
  nowIso : String
  parseIsoDatetime : String → Option String
  jsonLoads : String → Option PyVal
  literalEval : String → Option PyVal
  geocode : PyVal → GeoOutcome
  httpGetJson : String → HttpOutcome

/-- A conversation row, reduced to the identifiers the agent code reads. -/
structure Conv where
  id : Nat
  userId : Nat
deriving DecidableEq

/-- One row of the events table, recorded as the keyword arguments it was
created from. -/
structure EventRow where
  kwargs : List (String × PyVal)
deriving DecidableEq

/-- The attribute names accepted by `Event(**kwargs)`: the fields declared
on the `Event` model in `app/agents/models.py` (`prob_snowfall` and
`snow_depth` are not among them). -/
def eventFieldNames : List String :=
  ["id", "user", "conversation", "event_name", "event_date", "location_name",
   "latitude", "longitude", "weather_data", "temperature", "precipitation",
   "wind_speed", "created_at", "updated_at"]

/-- Django `Event.objects.create(**kwargs)`: a keyword argument that is not
a model field makes `Event.__init__` raise `TypeError` before any row is
inserted; otherwise the row is created. -/
def eventObjectsCreate (kwargs : List (String × PyVal)) (events : List EventRow) :
    Except String (Nat × List EventRow) :=
  if kwargs.all (fun kv => eventFieldNames.contains kv.1) then
    .ok (events.length, events ++ [⟨kwargs⟩])
  else
    .error "Event() got unexpected keyword arguments"

/-- The metric locals of `_save_event`, initialised to `None` and assigned
raw payload values (this variant of the extraction stores whatever
`dates_list[0].get("value")` returned). -/
structure SaveExtracted where
  temperature : PyVal := .none
  precipitation : PyVal := .none
  windSpeed : PyVal := .none
  probSnowfall : PyVal := .none
  snowDepth : PyVal := .none
deriving DecidableEq

/-- One assignment step of the extraction loop of `_save_event`: unlike
`_determine_mood`, the precipitation branch matches any name containing
`precip` with no `mm` requirement. -/
def saveAssign (e : SaveExtracted) (name : String) (v : Option PyVal) : SaveExtracted :=
  let w := v.getD .none
  if substrOf "t_2m:C" name then { e with temperature := w }
  else if substrOf "precip" name then { e with precipitation := w }
  else if substrOf "wind_speed" name then { e with windSpeed := w }
  else if substrOf "prob_snowfall" name then { e with probSnowfall := w }
  else if substrOf "snow_depth" name then { e with snowDepth := w }
  else e

/-- The extraction loop of `_save_event` over `actual_data["data"]`.  An
entry whose first coordinate or first date is not a dict, or whose parameter
name is not a string, makes Python raise; the exception is swallowed by the
inner handler, so the loop stops keeping the assignments made so far. -/
def saveExtractLoop : PyList → SaveExtracted → SaveExtracted
  | .nil, e => e
  | .cons p rest, e =>
    match p with
    | .dict pk =>
      (match pk.lookup "coordinates" with
       | some (.list (.cons c _)) =>
         (match c with
          | .dict ck =>
            (match ck.lookup "dates" with
             | some (.list (.cons d _)) =>
               (match d with
                | .dict dk =>
                  (match pk.lookup "parameter" with
                   | some (.str nm) => saveExtractLoop rest (saveAssign e nm (dk.lookup "value"))
                   | Option.none => saveExtractLoop rest (saveAssign e "" (dk.lookup "value"))
                   | some _ => e)
                | _ => e)
             | _ => saveExtractLoop rest e)
          | _ => e)
       | _ => saveExtractLoop rest e)
    | _ => saveExtractLoop rest e

/-- The `actual_data` selection of `_save_event`:
`parsed.get("data", parsed) if "success" in parsed else parsed`. -/
def saveActualData (parsed : PyDict) : PyVal :=
  if parsed.hasKey "success" then (parsed.lookup "data").getD (.dict parsed) else .dict parsed

/-- Metric extraction of `_save_event` from a parsed payload dict: it only
proceeds when `actual_data` is a dict whose `data` key holds a list; every
other case either skips the loop or raises into the swallowing inner
handler, leaving all metrics `None` either way. -/
def saveExtractFrom (parsed : PyDict) : SaveExtracted :=
  match saveActualData parsed with
  | .dict akvs =>
    (match akvs.lookup "data" with
     | some (.list ps) => saveExtractLoop ps {}
     | _ => {})
  | _ => {}

/-- The tiered weather parsing of `_save_event` plus its metric extraction.
For a truthy `weather_data` argument the stored payload starts as
`{"raw": value}`; a string is then parsed with `json.loads`, falling back to
`ast.literal_eval`, and only a truthy dict result replaces the raw wrapper;
extraction runs only in that case.  A falsy argument leaves the payload
`None`. -/
def saveWeather (env : Env) (weatherDataArg : PyVal) : PyVal × SaveExtracted :=
  if pyTruthy weatherDataArg then
    let base : PyVal := .dict (.cons "raw" weatherDataArg .nil)
    let parsed : Option PyVal :=
      match weatherDataArg with
      | .str s =>
        (match env.jsonLoads s with
         | some v => some v
         | Option.none => env.literalEval s)
      | _ => Option.none
    match parsed with
    | some p =>
      if pyTruthy p then
        match p with
        | .dict kvs => (.dict kvs, saveExtractFrom kvs)
        | _ => (base, {})
      else (base, {})
    | Option.none => (base, {})
  else (.none, {})

/-- A failed tool result of `_save_event` (`success` false plus the wrapped
exception text; exception texts are summarised, the embedded claims never
inspect them). -/
def saveErr (msg : String) : PyVal :=
  .dict (.cons "success" (.bool false)
    (.cons "error" (.str ("Error al guardar el evento: " ++ msg)) .nil))

/-- Embedding of `WeatherAgentService._save_event`: reads the tool
arguments, parses the event date (a missing or non-string date raises
`AttributeError` at `.replace`, a malformed one raises `ValueError` at
`fromisoformat`, both caught), computes the weather payload and metrics,
then attempts `Event.objects.create` with thirteen keyword arguments
including `prob_snowfall` and `snow_depth`.  Returns the tool-result dict
and the new events table. -/
def saveEvent (env : Env) (conv : Conv) (args : PyDict) (events : List EventRow) :
    PyVal × List EventRow :=
  let eventName := pyArgGet args "event_name"
  let locationName := (args.lookup "location_name").getD (.str "")
  let latitude := pyArgGet args "latitude"
  let longitude := pyArgGet args "longitude"
  match pyArgGet args "event_date" with
  | .str s =>
    (match env.parseIsoDatetime (s.replace "Z" "+00:00") with
     | some dt =>
       let wd := saveWeather env (pyArgGet args "weather_data")
       (match eventObjectsCreate
         [("user", .num conv.userId), ("conversation", .num conv.id),
          ("event_name", eventName), ("event_date", .str dt),
          ("location_name", locationName), ("latitude", latitude),
          ("longitude", longitude), ("weather_data", wd.1),
          ("temperature", wd.2.temperature), ("precipitation", wd.2.precipitation),
          ("wind_speed", wd.2.windSpeed), ("prob_snowfall", wd.2.probSnowfall),
          ("snow_depth", wd.2.snowDepth)] events with
        | .ok (eid, events') =>
          (.dict (.cons "success" (.bool true)
            (.cons "message" (.str "Evento guardado exitosamente")
              (.cons "event_id" (.num eid) .nil))), events')
        | .error m => (saveErr m, events))
     | Option.none => (saveErr "ValueError: invalid isoformat string", events))
  | _ => (saveErr "AttributeError: replace", events)

/-- Decimal-free rendering of a rational for Python f-string interpolation
of coordinate numbers (the embedded claims never inspect these strings). -/
def ratStr (q : ℚ) : String :=
  if q.den = 1 then toString q.num else toString q.num ++ "/" ++ toString q.den

/-- Python `str(v)` as used inside f-strings when building the weather URL. -/
def pyStr : PyVal → String
  | .str s => s
  | .none => "None"
  | .bool true => "True"
  | .bool false => "False"
  | .num q => ratStr q
  | .list _ => "[...]"
  | .dict _ => "{...}"

/-- A failed tool result `{"success": False, "error": msg}`. -/
def toolErr (msg : String) : PyVal :=
  .dict (.cons "success" (.bool false) (.cons "error" (.str msg) .nil))

/-- A successful tool result `{"success": True, key: value}`. -/
def toolOk (key : String) (value : PyVal) : PyVal :=
  .dict (.cons "success" (.bool true) (.cons key value .nil))

/-- The registered tool names of `_call_external_api`. -/
def knownToolNames : List String :=
  ["save_event", "get_coordinates_from_address", "get_current_datetime", "get_weather_data"]

/-- The `success` field of a tool-result value, when it is a dict carrying a
boolean there. -/
def resultSuccess (r : PyVal) : Option Bool :=
  match r with
  | .dict kvs =>
    (match kvs.lookup "success" with
     | some (.bool b) => some b
     | _ => Option.none)
  | _ => Option.none

/-- Embedding of `WeatherAgentService._call_external_api`: dispatch by tool
name over the fixed registry; every failure of a handler (missing
credentials, provider exception, empty geocoding result, non-200 weather
response, unparseable body) is returned as a failed tool-result value, and
an unregistered name is reported as unrecognised.  The function is total:
no branch escapes with an exception. -/
def dispatchTool (env : Env) (functionName : String) (args : PyDict)
    (conversation : Option Conv) (events : List EventRow) : PyVal × List EventRow :=
  if functionName = "save_event" then
    match conversation with
    | some conv => saveEvent env conv args events
    | Option.none => (toolErr "Conversación no disponible para guardar evento", events)
  else if functionName = "get_coordinates_from_address" then
    (match env.googleMapsApiKey with
     | Option.none => (toolErr "API Key de Google Maps no configurada.", events)
     | some _ =>
       (match env.geocode (pyArgGet args "address") with
        | .raise m => (toolErr ("Error al llamar a la API de Geocoding: " ++ m), events)
        | .ok [] =>
          (toolErr ("No se encontraron coordenadas para \x27"
            ++ pyStr (pyArgGet args "address")
            ++ "\x27. Pide al usuario que sea más específico."), events)
        | .ok ((lat, lng) :: _) =>
          (toolOk "location" (.str (ratStr lat ++ "," ++ ratStr lng)), events)))
  else if functionName = "get_current_datetime" then
    (toolOk "current_datetime" (.str env.nowIso), events)
  else if functionName = "get_weather_data" then
    (match env.meteomaticsUsername, env.meteomaticsPassword with
     | some _, some _ =>
       let baseUrl := env.meteomaticsApiUrl.getD "https://api.meteomatics.com"
       let url := baseUrl ++ "/" ++ pyStr (pyArgGet args "datetime")
         ++ "/" ++ pyStr (pyArgGet args "parameters")
         ++ "/" ++ pyStr (pyArgGet args "coordinates") ++ "/json"
       (match env.httpGetJson url with
        | .raise m => (toolErr ("Error al consultar Meteomatics: " ++ m), events)
        | .resp status text body =>
          if status = 200 then
            (match body with
             | some j => (toolOk "data" j, events)
             | Option.none =>
               (toolErr "Error al consultar Meteomatics: response body is not JSON", events))
          else
            (toolErr ("API respondió con código " ++ toString status ++ ": " ++ text), events))
     | _, _ => (toolErr "Credenciales de Meteomatics no configuradas", events))
  else
    (toolErr ("Función \x27" ++ functionName ++ "\x27 no reconocida"), events)

/-- One part of a model response candidate: a tool-call directive or text. -/
inductive MPart where
  | funcCall : String → PyDict → MPart
  | text : String → MPart
deriving DecidableEq

/-- One model-endpoint call outcome: a response with content parts, or a
transport exception. -/
inductive ModelBehavior where
  | respond : List MPart → ModelBehavior
  | raise : String → ModelBehavior
deriving DecidableEq

/-- The scan of `response.candidates[0].content.parts` for the first part
carrying a `function_call`. -/
def firstFunctionCall : List MPart → Option (String × PyDict)
  | [] => Option.none
  | .funcCall n a :: _ => some (n, a)
  | .text _ :: rest => firstFunctionCall rest

/-- The `response.text` accessor: concatenation of the text parts. -/
def partsText : List MPart → String
  | [] => ""
  | .text s :: rest => s ++ partsText rest
  | .funcCall _ _ :: rest => partsText rest

/-- One entry of the in-memory `contents` request list: a role-tagged text
turn, a raw model content echoed back, or a synthesized function response. -/
inductive GContent where
  | turn : String → String → GContent
  | modelParts : List MPart → GContent
  | functionResponse : String → PyVal → GContent
deriving DecidableEq

/-- The running state of the tool-calling loop: the in-memory request list,
the events table, and the last successful weather payload. -/
structure LoopState where
  contents : List GContent
  events : List EventRow
  weatherData : Option PyVal
deriving DecidableEq

/-- How one run of the `while True` loop of `process_user_message` ends:
with a final textual reply, or with an exception raised by the model
endpoint. -/
inductive LoopOut where
  | reply : String → LoopState → LoopOut
  | raised : String → LoopState → LoopOut
deriving DecidableEq

/-- The `while True` tool-calling loop of `process_user_message`, run for at
most `fuel` model calls (the source has no cap; `Option.none` means the
budget was exhausted with the loop still running, so the run is
undetermined).  Each iteration asks the model, dispatches the first
function call found, appends the raw model content and the synthesized
function response, records the payload of a successful `get_weather_data`
call, and only a call-free response ends the loop with its text. -/
def toolLoop (env : Env) (model : Nat → ModelBehavior) (conv : Conv) :
    Nat → Nat → LoopState → Option LoopOut
  | 0, _, _ => Option.none
  | fuel + 1, i, st =>
    match model i with
    | .raise m => some (.raised m st)
    | .respond parts =>
      match firstFunctionCall parts with
      | some (fname, fargs) =>
        let r := dispatchTool env fname fargs (some conv) st.events
        let wd :=
          if fname = "get_weather_data" && ((resultSuccess r.1).getD false) then
            (match r.1 with
             | .dict kvs => kvs.lookup "data"
             | _ => Option.none)
          else st.weatherData
        toolLoop env model conv fuel (i + 1)
          { contents := st.contents ++ [.modelParts parts, .functionResponse fname r.1],
            events := r.2, weatherData := wd }
      | Option.none => some (.reply (partsText parts) st)

/-- One persisted message row of a conversation. -/
structure PMsg where
  role : String
  content : String
deriving DecidableEq

/-- The request-content assembly of `process_user_message`: the stored
history mapped to role-tagged entries (stored role `user` keeps the `user`
role, anything else becomes `model`), built by the source loop as repeated
appends, followed by the new user message. -/
def buildContents (history : List PMsg) (userMessage : String) : List GContent :=
  (history.foldl
    (fun acc m => acc ++ [GContent.turn (if m.role = "user" then "user" else "model") m.content])
    []) ++ [GContent.turn "user" userMessage]

/-- The error outcomes of `process_user_message`: the empty-message
`ValueError` raised before the handler block, and the wrapping `Exception`
re-raised by the handler for everything else. -/
inductive PErr where
  | invalidInput : String → PErr
  | orchestration : String → PErr
deriving DecidableEq

/-- The success value of `process_user_message`. -/
structure AgentResult where
  message : String
  mood : String
deriving DecidableEq

/-- The emptiness precondition of `process_user_message`:
`not user_message or not user_message.strip()`. -/
def emptyCheck (s : String) : Bool :=
  s.isEmpty || (pyStrip s).isEmpty

/-- Embedding of `WeatherAgentService.process_user_message` with the
persisted message list and events table threaded explicitly.  An empty or
whitespace-only message fails first, before anything else; then the Gemini
client is built (a missing `GOOGLE_API_KEY` raises inside the handler),
the history is read and the request list assembled, the user message is
persisted, the tool loop runs, and on a textual reply the assistant message
is persisted and the mood computed.  `Option.none` propagates an exhausted
loop budget (the source loop is unbounded). -/
def processUserMessage (env : Env) (model : Nat → ModelBehavior) (fuel : Nat)
    (conv : Conv) (persisted : List PMsg) (events : List EventRow)
    (userMessage : String) :
    Option (Except PErr AgentResult × List PMsg × List EventRow) :=
  if emptyCheck userMessage then
    some (.error (.invalidInput "El mensaje no puede estar vacío"), persisted, events)
  else
    match env.googleApiKey with
    | Option.none =>
      some (.error (.orchestration "Error al usar Google Gemini: GOOGLE_API_KEY no está configurada"),
        persisted, events)
    | some _ =>
      let contents := buildContents persisted userMessage
      let persistedWithUser := persisted ++ [⟨"user", userMessage⟩]
      match toolLoop env model conv fuel 0 ⟨contents, events, Option.none⟩ with
      | Option.none => Option.none
      | some (.raised m st) =>
        some (.error (.orchestration ("Error al usar Google Gemini: " ++ m)),
          persistedWithUser, st.events)
      | some (.reply text st) =>
        some (.ok ⟨text, determineMood text st.weatherData⟩,
          persistedWithUser ++ [⟨"assistant", text⟩], st.events)

/-- Alternation invariant of a persisted conversation: the rows form
consecutive pairs of one user-authored then one assistant-authored turn. -/
def wellFormedHistory : List PMsg → Bool
  | [] => true
  | u :: a :: rest => (u.role = "user" && a.role = "assistant") && wellFormedHistory rest
  | _ :: [] => false

/-- A scripted model stub that requests a tool call on every turn. -/
def alwaysToolModel : Nat → ModelBehavior :=
  fun _ => .respond [.funcCall "get_current_datetime" .nil]

deriving instance DecidableEq for Except

/-- A weather payload carrying one `t_2m:C` parameter with value minus 5. -/
def wTempNeg5 : PyVal :=
  .dict (pyDictOf [("data", .list (pyListOf
    [.dict (pyDictOf [("parameter", .str "t_2m:C"),
      ("coordinates", .list (pyListOf
        [.dict (pyDictOf [("dates", .list (pyListOf
          [.dict (pyDictOf [("value", .num (-5))])]))])]))])]))])

/-- A weather payload carrying `precip_1h:mm` value 6 and
`wind_speed_10m:kmh` value 45 (spec section 8 stormy example). -/
def wStorm : PyVal :=
  .dict (pyDictOf [("data", .list (pyListOf
    [.dict (pyDictOf [("parameter", .str "precip_1h:mm"),
      ("coordinates", .list (pyListOf
        [.dict (pyDictOf [("dates", .list (pyListOf
          [.dict (pyDictOf [("value", .num 6)])]))])]))]),
     .dict (pyDictOf [("parameter", .str "wind_speed_10m:kmh"),
      ("coordinates", .list (pyListOf
        [.dict (pyDictOf [("dates", .list (pyListOf
          [.dict (pyDictOf [("value", .num 45)])]))])]))])]))])

/-- A fully concrete environment used for closed evaluations: credentials
for the model present, everything else absent or failing, and the
standard-library parse oracles fixed on the inputs the evaluations use. -/
def stubEnv : Env where
  googleApiKey := some "k"
  googleMapsApiKey := Option.none
  meteomaticsUsername := Option.none
  meteomaticsPassword := Option.none
  meteomaticsApiUrl := Option.none
  nowIso := "2025-10-05T15:00:00Z"
  parseIsoDatetime := fun s => if s = "2024-01-15T12:00:00+00:00" then some s else Option.none
  jsonLoads := fun t =>
    if t = "\x7b\x7d" then some (.dict .nil)
    else if t = "\x7b\x22a\x22: 1\x7d" then some (.dict (.cons "a" (.num 1) .nil))
    else Option.none
  literalEval := fun t =>
    if t = "\x7b\x27a\x27: 1\x7d" then some (.dict (.cons "a" (.num 1) .nil))
    else Option.none
  geocode := fun _ => .ok []
  httpGetJson := fun _ => .resp 500 "err" Option.none

/-- A scripted model stub that replies with plain text at once. -/
def stubModelText : Nat → ModelBehavior := fun _ => .respond [.text "listo"]

/-- A scripted model stub whose endpoint call raises. -/
def raiseModel : Nat → ModelBehavior := fun _ => .raise "boom"

/-- The events table is never changed by `_save_event`, and its tool result
always reports failure: `Event.objects.create` is reached only with the
thirteen keyword arguments fixed in the source, two of which
(`prob_snowfall`, `snow_depth`) are not `Event` model fields, so it raises
`TypeError`; every earlier failure is caught by the same handler. -/
theorem saveEvent_false_and_pure (env : Env) (conv : Conv) (args : PyDict)
    (events : List EventRow) :
    resultSuccess (saveEvent env conv args events).1 = some false ∧
      (saveEvent env conv args events).2 = events := by
  unfold saveEvent
  split
  · split
    · constructor <;> rfl
    · constructor <;> rfl
  · constructor <;> rfl

/-- Tool dispatch never touches the events table: the only handler with a
persistence side effect is `_save_event`, whose create call always fails. -/
theorem dispatchTool_events_eq (env : Env) (functionName : String) (args : PyDict)
    (conversation : Option Conv) (events : List EventRow) :
    (dispatchTool env functionName args conversation events).2 = events := by
  unfold dispatchTool
  split
  · split
    · exact (saveEvent_false_and_pure ..).2
    · rfl
  · repeat' first
      | rfl
      | split
      | dsimp only

/-- Every dispatch outcome is a tool-result dict with a boolean `success`
field: tool failures come back as values, not exceptions. -/
theorem dispatchTool_success_bool (env : Env) (functionName : String) (args : PyDict)
    (conversation : Option Conv) (events : List EventRow) :
    resultSuccess (dispatchTool env functionName args conversation events).1 = some true ∨
      resultSuccess (dispatchTool env functionName args conversation events).1 = some false := by
  unfold dispatchTool
  split
  · split
    · exact Or.inr (saveEvent_false_and_pure ..).1
    · exact Or.inr rfl
  · repeat' first
      | exact Or.inl rfl
      | exact Or.inr rfl
      | split
      | dsimp only

/-- The events table of the state a finished tool loop reports is the one it
started from: no loop iteration ever commits an event row. -/
theorem toolLoop_events_eq (env : Env) (model : Nat → ModelBehavior) (conv : Conv) :
    ∀ fuel i st out, toolLoop env model conv fuel i st = some out →
      (match out with
       | .reply _ st' => st'.events
       | .raised _ st' => st'.events) = st.events := by
  intro fuel
  induction fuel with
  | zero => intro i st out h; exact absurd h (by simp [toolLoop])
  | succ n ih =>
    intro i st out h
    unfold toolLoop at h
    split at h
    · cases h; rfl
    · split at h
      · have h2 := ih (i + 1) _ _ h
        simpa [dispatchTool_events_eq] using h2
      · cases h; rfl

/-- Under a model that always requests a tool call, the loop makes no
progress towards a reply within any finite number of iterations. -/
theorem toolLoop_alwaysTool_none (env : Env) (conv : Conv) :
    ∀ fuel i st, toolLoop env alwaysToolModel conv fuel i st = Option.none := by
  intro fuel
  induction fuel with
  | zero => intro i st; rfl
  | succ n ih =>
    intro i st
    unfold toolLoop
    simpa [alwaysToolModel, firstFunctionCall] using ih (i + 1) _

/-- The repeated-append loop of the source builds exactly the mapped
history. -/
theorem buildContents_foldl_eq (f : PMsg → GContent) :
    ∀ (history : List PMsg) (acc : List GContent),
      history.foldl (fun acc m => acc ++ [f m]) acc = acc ++ history.map f := by
  intro history
  induction history with
  | nil => intro acc; simp
  | cons m rest ih => intro acc; simp [ih]

/-- Appending one user turn then one assistant turn preserves the
alternation invariant. -/
theorem wellFormedHistory_append (x y : String) :
    ∀ l, wellFormedHistory l = true →
      wellFormedHistory (l ++ [⟨"user", x⟩, ⟨"assistant", y⟩]) = true
  | [], _ => by simp [wellFormedHistory]
  | [m], h => by simp [wellFormedHistory] at h
  | m1 :: m2 :: rest, h => by
    simp only [wellFormedHistory, Bool.and_eq_true] at h
    simp only [List.cons_append, wellFormedHistory, Bool.and_eq_true]
    exact ⟨h.1, wellFormedHistory_append x y rest h.2⟩

/-- The truthiness guard on the wind comparison is redundant: a wind speed
above 40 is in particular nonzero. -/
theorem optTruthyGt40_eq (x : Option ℚ) : optTruthyGt40 x = optNumGt x 40 := by
  cases x with
  | none => rfl
  | some v =>
    simp only [optTruthyGt40, optNumGt]
    by_cases h : (40 : ℚ) < v
    · have hne : v ≠ 0 := by intro h0; rw [h0] at h; norm_num at h
      simp [h, hne]
    · simp [h]

/-- Precipitation above 5 is in particular above 0.5. -/
theorem optNumGt_five_imp (p : Option ℚ) (h : optNumGt p 5 = true) :
    optNumGt p qPointFive = true := by
  cases p with
  | none => simp [optNumGt] at h
  | some v =>
    simp only [optNumGt, decide_eq_true_eq] at h ⊢
    have hq : qPointFive < 5 := by decide
    linarith

/-- The fallback scan only returns moods of the documented enumeration. -/
theorem moodFallback_mem (ml : String) : moodFallback ml ∈ moodValues := by
  unfold moodFallback
  split_ifs <;> decide

set_option maxHeartbeats 2000000 in
/-- The classifier chain only returns moods of the documented
enumeration. -/
theorem codeMood_mem (ml : String) (e : Extracted) : codeMood ml e ∈ moodValues := by
  unfold codeMood
  have hfb := moodFallback_mem ml
  revert hfb
  generalize moodFallback ml = fb
  intro hfb
  repeat' split
  all_goals first
    | exact hfb
    | decide

/-- The decision chain of the source equals the spec ordering amended with
the fourth snow rule: the two differ only in how the snow disjunction and
the heavy-rain branch are nested, and those nestings are equivalent. -/
theorem codeMood_eq_eightCore (ml : String) (e : Extracted) :
    codeMood ml e =
      (if containsAny ml successWords then "success"
       else if containsAny ml loadingWords then "loading"
       else if specSnowSignal e then "snow"
       else if optNumLt e.temperature (-2) && containsAny ml snowTempWords then "snow"
       else if optNumGt e.precipitation 5 && optNumGt e.windSpeed 40 then "stormy"
       else if optNumGt e.precipitation qPointFive then "rainy"
       else if optNumGt e.windSpeed 50 then "stormy"
       else if optNumGt e.temperature 35 then "hot"
       else if tempMild e.temperature && lowPrecip e.precipitation then "sunny"
       else moodFallback ml) := by
  unfold codeMood
  by_cases h1 : containsAny ml successWords = true
  · rw [if_pos h1, if_pos h1]
  rw [if_neg h1, if_neg h1]
  by_cases h2 : containsAny ml loadingWords = true
  · rw [if_pos h2, if_pos h2]
  rw [if_neg h2, if_neg h2]
  by_cases hA : optNumGt e.snowDepth 0 = true
  · rw [if_pos hA, if_pos (show specSnowSignal e = true by simp [specSnowSignal, hA])]
  rw [if_neg hA]
  by_cases hB : optNumGt e.probSnowfall 50 = true
  · rw [if_pos hB, if_pos (show specSnowSignal e = true by simp [specSnowSignal, hB])]
  rw [if_neg hB]
  by_cases hC : snowTempPrecip e = true
  · rw [if_pos hC, if_pos (show specSnowSignal e = true by simp [specSnowSignal, hC])]
  rw [if_neg hC, if_neg (show ¬ specSnowSignal e = true by simp [specSnowSignal, hA, hB, hC])]
  by_cases h4 : (optNumLt e.temperature (-2) && containsAny ml snowTempWords) = true
  · rw [if_pos h4, if_pos h4]
  rw [if_neg h4, if_neg h4]
  by_cases hp5 : optNumGt e.precipitation 5 = true
  · by_cases hw : optTruthyGt40 e.windSpeed = true
    · have hw40 : optNumGt e.windSpeed 40 = true := by rw [← optTruthyGt40_eq]; exact hw
      rw [if_pos hp5, if_pos hw,
        if_pos (show (optNumGt e.precipitation 5 && optNumGt e.windSpeed 40) = true by
          simp [hp5, hw40])]
    · have hw40 : ¬ optNumGt e.windSpeed 40 = true := by rw [← optTruthyGt40_eq]; exact hw
      rw [if_pos hp5, if_neg hw,
        if_neg (show ¬ (optNumGt e.precipitation 5 && optNumGt e.windSpeed 40) = true by
          simp [hw40]),
        if_pos (optNumGt_five_imp _ hp5)]
  rw [if_neg hp5,
    if_neg (show ¬ (optNumGt e.precipitation 5 && optNumGt e.windSpeed 40) = true by
      simp [hp5])]
  by_cases hpf : optNumGt e.precipitation qPointFive = true
  · rw [if_pos hpf, if_pos hpf]
  rw [if_neg hpf, if_neg hpf]
  by_cases hw50 : optNumGt e.windSpeed 50 = true
  · rw [if_pos hw50, if_pos hw50]
  rw [if_neg hw50, if_neg hw50]
  rcases e.temperature with _ | t
  · rfl
  · rfl

/-- The docstring contract of the source classifier equals the spec
ordering amended with the fourth snow rule. -/
theorem determineMood_eq_specMoodEight (msg : String) (w : Option PyVal) :
    determineMood msg w = specMoodEight msg w :=
  codeMood_eq_eightCore (pyLower msg) (extractWeather w)

/-- C1: the claim asserts the tool-calling loop of `process_user_message`
stops at a configured iteration cap and surfaces `ToolLoopExceededError`
under a model that always requests a tool call.  The source loop is
`while True` with no cap and no such error: this theorem shows that under
the always-tool-calling stub the loop yields no reply within any finite
number of iterations, and the whole call never completes — the code loops
indefinitely instead of stopping at a cap. -/
theorem c1_loop_never_stops :
    (∀ (env : Env) (conv : Conv) (fuel i : Nat) (st : LoopState),
      toolLoop env alwaysToolModel conv fuel i st = Option.none) ∧
    (∀ fuel : Nat,
      processUserMessage stubEnv alwaysToolModel fuel ⟨1, 1⟩ [] [] "hola" = Option.none) := by
  refine ⟨fun env conv fuel i st => toolLoop_alwaysTool_none env conv fuel i st, ?_⟩
  intro fuel
  simp only [processUserMessage, toolLoop_alwaysTool_none]
  decide

/-- C2: for every argument mapping, `_save_event` returns a failed tool
result and creates no event row: `Event.objects.create` is always invoked
with the keyword arguments `prob_snowfall` and `snow_depth`, which are not
fields of the `Event` model, so it raises and the handler reports the
caught exception as a failed result. -/
theorem c2_save_event_always_fails (env : Env) (conv : Conv) (args : PyDict)
    (events : List EventRow) :
    resultSuccess (saveEvent env conv args events).1 = some false ∧
    (saveEvent env conv args events).2 = events ∧
    eventFieldNames.contains "prob_snowfall" = false ∧
    eventFieldNames.contains "snow_depth" = false :=
  ⟨(saveEvent_false_and_pure env conv args events).1,
   (saveEvent_false_and_pure env conv args events).2, by decide, by decide⟩

/-- C6 counterexample: on the reply text `congelado` with a payload whose
temperature is minus 5, the source classifier returns `snow` through its
fourth snow rule (temperature below minus 2 plus a snow keyword), while
the seven-step priority order of spec section 4.3 returns `neutral` —
the classifier is not the seven-step order as claimed. -/
theorem c6_counterexample :
    determineMood "congelado" (some wTempNeg5) = "snow" ∧
    specMoodSeven "congelado" (some wTempNeg5) = "neutral" ∧
    decide (("snow" : String) = "neutral") = false :=
  ⟨by decide, by decide, by decide⟩

/-- C6 amended: on every reply text and every payload of the provider's
documented shape, the classifier returns exactly the result of the
eight-step priority order — the spec order with the fourth snow rule
(temperature below minus 2 together with a snow keyword) inserted after
the three structured snow signals — and its value always lies in the
ten-element mood enumeration. -/
theorem c6_eight_step_order (msg : String) (w : Option PyVal)
    (hw : wellFormedPayload w = true) :
    determineMood msg w = specMoodEight msg w ∧ determineMood msg w ∈ moodValues :=
  ⟨determineMood_eq_specMoodEight msg w, codeMood_mem (pyLower msg) (extractWeather w)⟩

/-- C6 witness: the amended equivalence evaluated at a concrete text and
payload. -/
theorem c6_witness :
    wellFormedPayload (some wTempNeg5) = true ∧
    (determineMood "hola" (some wTempNeg5) = specMoodEight "hola" (some wTempNeg5) ∧
      determineMood "hola" (some wTempNeg5) ∈ moodValues) :=
  ⟨by decide, c6_eight_step_order "hola" (some wTempNeg5) (by decide)⟩

/-- C7: with precipitation 6 mm and wind speed 45 in the payload and no
success or loading marker in the reply text, the classifier returns
`stormy`: the combined precipitation over 5 mm and wind over 40 rule wins
over the plain rainy rule. -/
theorem c7_storm_priority (msg : String)
    (h1 : containsAny (pyLower msg) successWords = false)
    (h2 : containsAny (pyLower msg) loadingWords = false) :
    determineMood msg (some wStorm) = "stormy" := by
  have he : extractWeather (some wStorm) =
      { precipitation := some 6, windSpeed := some 45 } := by decide
  unfold determineMood
  rw [he]
  unfold codeMood
  rw [if_neg (by simp [h1]), if_neg (by simp [h2])]
  rfl

/-- C7 witness: the stormy-priority rule evaluated at a concrete text. -/
theorem c7_witness : determineMood "x" (some wStorm) = "stormy" :=
  c7_storm_priority "x" (by decide) (by decide)

/-- C8: the model request content list built by `process_user_message`
from a stored history of N turns and a new user message has length N + 1,
preserves the stored order, and maps stored role `user` to model role
`user` and any other stored role to `model`. -/
theorem c8_contents_round_trip (history : List PMsg) (userMessage : String) :
    buildContents history userMessage =
      history.map
        (fun m => GContent.turn (if m.role = "user" then "user" else "model") m.content)
        ++ [GContent.turn "user" userMessage] ∧
    (buildContents history userMessage).length = history.length + 1 := by
  have h := buildContents_foldl_eq
    (fun m => GContent.turn (if m.role = "user" then "user" else "model") m.content) history []
  constructor
  · unfold buildContents
    rw [h]
    simp
  · unfold buildContents
    rw [h]
    simp

/-- C3 counterexample: the string of two brace characters is valid JSON
parsing to the empty dict, yet the payload `_save_event` builds for it is
the raw wrapper, not the parsed mapping — the guard
`if parsed and isinstance(parsed, dict)` rejects every falsy parse, so a
valid JSON empty object does not round-trip; and the empty weather string
is treated as absent, so nothing is preserved under the raw key. -/
theorem c3_counterexample :
    stubEnv.jsonLoads "\x7b\x7d" = some (PyVal.dict .nil) ∧
    (saveWeather stubEnv (.str "\x7b\x7d")).1 =
      PyVal.dict (.cons "raw" (.str "\x7b\x7d") .nil) ∧
    decide ((saveWeather stubEnv (.str "\x7b\x7d")).1 = PyVal.dict .nil) = false ∧
    (saveWeather stubEnv (.str "")).1 = PyVal.none :=
  ⟨by decide, by decide, by decide, by decide⟩

/-- C3 amended: for a non-empty `weather_data` string, a parse (by
`json.loads`, or by the `ast.literal_eval` fallback when JSON parsing
raises) that yields a truthy dict becomes the stored structured payload
verbatim; when both parsers raise, or either tier (the JSON parse or the
literal-eval fallback) yields anything that is not a truthy dict, the raw
string is preserved under the key `raw`; an empty weather string is
treated as absent; and no exception escapes the handler (the embedded
function is total). -/
theorem c3_tiered_parsing (env : Env) (s : String) (p : PyVal)
    (hne : s.isEmpty = false) :
    (env.jsonLoads s = some p → pyTruthy p = true → isPyDict p = true →
      (saveWeather env (.str s)).1 = p) ∧
    (env.jsonLoads s = Option.none → env.literalEval s = some p → pyTruthy p = true →
      isPyDict p = true → (saveWeather env (.str s)).1 = p) ∧
    (env.jsonLoads s = Option.none → env.literalEval s = Option.none →
      (saveWeather env (.str s)).1 = PyVal.dict (.cons "raw" (.str s) .nil)) ∧
    (env.jsonLoads s = some p → pyTruthy p = false ∨ isPyDict p = false →
      (saveWeather env (.str s)).1 = PyVal.dict (.cons "raw" (.str s) .nil)) ∧
    (env.jsonLoads s = Option.none → env.literalEval s = some p →
      pyTruthy p = false ∨ isPyDict p = false →
      (saveWeather env (.str s)).1 = PyVal.dict (.cons "raw" (.str s) .nil)) ∧
    (saveWeather env (.str "")).1 = PyVal.none := by
  have ht : pyTruthy (.str s) = true := by simp [pyTruthy, hne]
  refine ⟨?_, ?_, ?_, ?_, ?_, rfl⟩
  · intro hj htr hd
    unfold saveWeather
    rw [if_pos ht]
    dsimp only
    rw [hj]
    cases p with
    | dict kvs => simp [htr]
    | none => simp [isPyDict] at hd
    | bool b => simp [isPyDict] at hd
    | num q => simp [isPyDict] at hd
    | str t => simp [isPyDict] at hd
    | list l => simp [isPyDict] at hd
  · intro hj hl htr hd
    unfold saveWeather
    rw [if_pos ht]
    dsimp only
    rw [hj, hl]
    cases p with
    | dict kvs => simp [htr]
    | none => simp [isPyDict] at hd
    | bool b => simp [isPyDict] at hd
    | num q => simp [isPyDict] at hd
    | str t => simp [isPyDict] at hd
    | list l => simp [isPyDict] at hd
  · intro hj hl
    unfold saveWeather
    rw [if_pos ht]
    dsimp only
    rw [hj, hl]
  · intro hj hx
    unfold saveWeather
    rw [if_pos ht]
    dsimp only
    rw [hj]
    cases p with
    | dict kvs =>
      rcases hx with hx | hx
      · simp [hx]
      · simp [isPyDict] at hx
    | none => rfl
    | bool b =>
      rcases hx with hx | hx <;> simp [pyTruthy] at hx ⊢
    | num q => rcases hx with hx | hx <;> simp [pyTruthy] at hx ⊢
    | str t => rcases hx with hx | hx <;> simp [pyTruthy] at hx ⊢
    | list l => rcases hx with hx | hx <;> simp [pyTruthy] at hx ⊢
  · intro hj hl hx
    unfold saveWeather
    rw [if_pos ht]
    dsimp only
    rw [hj, hl]
    cases p with
    | dict kvs =>
      rcases hx with hx | hx
      · simp [hx]
      · simp [isPyDict] at hx
    | none => rfl
    | bool b =>
      rcases hx with hx | hx <;> simp [pyTruthy] at hx ⊢
    | num q => rcases hx with hx | hx <;> simp [pyTruthy] at hx ⊢
    | str t => rcases hx with hx | hx <;> simp [pyTruthy] at hx ⊢
    | list l => rcases hx with hx | hx <;> simp [pyTruthy] at hx ⊢

/-- A concrete environment whose literal-eval fallback accepts the Python
literal `None` (falsy, not a dict) after a JSON parse failure. -/
def stubEnvLit : Env :=
  { stubEnv with literalEval := fun t => if t = "None" then some PyVal.none else Option.none }

/-- C3 witness: the tiers evaluated concretely — a JSON dict string, a
single-quoted Python-literal dict string accepted by the fallback,
unparseable garbage kept under the raw key, a falsy literal-eval result
kept under the raw key, and the empty weather string treated as absent. -/
theorem c3_witness :
    (saveWeather stubEnv (.str "\x7b\x22a\x22: 1\x7d")).1 =
      PyVal.dict (.cons "a" (.num 1) .nil) ∧
    (saveWeather stubEnv (.str "\x7b\x27a\x27: 1\x7d")).1 =
      PyVal.dict (.cons "a" (.num 1) .nil) ∧
    (saveWeather stubEnv (.str "garbage")).1 =
      PyVal.dict (.cons "raw" (.str "garbage") .nil) ∧
    (saveWeather stubEnvLit (.str "None")).1 =
      PyVal.dict (.cons "raw" (.str "None") .nil) ∧
    (saveWeather stubEnv (.str "")).1 = PyVal.none :=
  ⟨(c3_tiered_parsing stubEnv "\x7b\x22a\x22: 1\x7d" (PyVal.dict (.cons "a" (.num 1) .nil))
      (by decide)).1 (by decide) (by decide) (by decide),
   (c3_tiered_parsing stubEnv "\x7b\x27a\x27: 1\x7d" (PyVal.dict (.cons "a" (.num 1) .nil))
      (by decide)).2.1 (by decide) (by decide) (by decide) (by decide),
   (c3_tiered_parsing stubEnv "garbage" PyVal.none (by decide)).2.2.1
     (by decide) (by decide),
   (c3_tiered_parsing stubEnvLit "None" PyVal.none (by decide)).2.2.2.2.1
     (by decide) (by decide) (Or.inl (by decide)),
   (c3_tiered_parsing stubEnv "x" PyVal.none (by decide)).2.2.2.2.2⟩

/-- The source emptiness condition `not user_message or not
user_message.strip()` holds exactly when the message is empty after
trimming whitespace. -/
theorem emptyCheck_eq_strip (s : String) : emptyCheck s = (pyStrip s).isEmpty := by
  unfold emptyCheck
  cases hs : s.isEmpty
  · simp
  · have h0 : s = "" := (String.isEmpty_iff s).mp hs
    subst h0
    decide

/-- C4: an empty or whitespace-only user message fails with the
invalid-input error before any model call and before any message is
persisted (the returned state equals the input state whatever the model
oracle does); a message that is non-empty after trimming passes the
precondition — the outcome is never the invalid-input error. -/
theorem c4_empty_precondition (env : Env) (model : Nat → ModelBehavior) (fuel : Nat)
    (conv : Conv) (persisted : List PMsg) (events : List EventRow) (msg : String) :
    emptyCheck msg = (pyStrip msg).isEmpty ∧
    (emptyCheck msg = true →
      processUserMessage env model fuel conv persisted events msg =
        some (.error (.invalidInput "El mensaje no puede estar vacío"), persisted, events)) ∧
    (emptyCheck msg = false →
      processUserMessage env model fuel conv persisted events msg = Option.none ∨
      (∃ m st ev, processUserMessage env model fuel conv persisted events msg =
        some (.error (.orchestration m), st, ev)) ∨
      (∃ r st ev, processUserMessage env model fuel conv persisted events msg =
        some (.ok r, st, ev))) := by
  refine ⟨emptyCheck_eq_strip msg, ?_, ?_⟩
  · intro h
    unfold processUserMessage
    rw [if_pos h]
  · intro h
    unfold processUserMessage
    rw [if_neg (by simp [h])]
    cases hk : env.googleApiKey with
    | none => exact Or.inr (Or.inl ⟨_, _, _, rfl⟩)
    | some k =>
      dsimp only
      cases hl : toolLoop env model conv fuel 0
          ⟨buildContents persisted msg, events, Option.none⟩ with
      | none => exact Or.inl rfl
      | some out =>
        cases out with
        | raised m st => exact Or.inr (Or.inl ⟨_, _, _, rfl⟩)
        | reply text st => exact Or.inr (Or.inr ⟨_, _, _, rfl⟩)

/-- C4 witness: a whitespace-only message rejected with the state
untouched, and a non-empty message passing the precondition. -/
theorem c4_witness :
    processUserMessage stubEnv stubModelText 1 ⟨1, 1⟩ [] [] " \t " =
      some (.error (.invalidInput "El mensaje no puede estar vacío"), [], []) ∧
    (processUserMessage stubEnv stubModelText 1 ⟨1, 1⟩ [] [] "hola" = Option.none ∨
      (∃ m st ev, processUserMessage stubEnv stubModelText 1 ⟨1, 1⟩ [] [] "hola" =
        some (.error (.orchestration m), st, ev)) ∨
      (∃ r st ev, processUserMessage stubEnv stubModelText 1 ⟨1, 1⟩ [] [] "hola" =
        some (.ok r, st, ev))) :=
  ⟨(c4_empty_precondition stubEnv stubModelText 1 ⟨1, 1⟩ [] [] " \t ").2.1 (by decide),
   (c4_empty_precondition stubEnv stubModelText 1 ⟨1, 1⟩ [] [] "hola").2.2 (by decide)⟩

/-- C5: tool dispatch never raises — every outcome is a tool-result value
with a boolean success flag; an unregistered name yields the
unrecognised-function failure; and each listed tool-level failure (missing
geocoding key, empty geocoding result, missing weather credentials,
non-200 weather response, and any `save_event` call, whose date parsing or
row creation always fails) comes back as a failed result value. -/
theorem c5_dispatch_never_raises (env : Env) (functionName : String) (args : PyDict)
    (conversation : Option Conv) (events : List EventRow) :
    (resultSuccess (dispatchTool env functionName args conversation events).1 = some true ∨
      resultSuccess (dispatchTool env functionName args conversation events).1 = some false) ∧
    (knownToolNames.contains functionName = false →
      dispatchTool env functionName args conversation events =
        (toolErr ("Función \x27" ++ functionName ++ "\x27 no reconocida"), events)) ∧
    (env.googleMapsApiKey = Option.none →
      resultSuccess
        (dispatchTool env "get_coordinates_from_address" args conversation events).1 =
        some false) ∧
    (env.geocode (pyArgGet args "address") = .ok [] →
      resultSuccess
        (dispatchTool env "get_coordinates_from_address" args conversation events).1 =
        some false) ∧
    (env.meteomaticsUsername = Option.none ∨ env.meteomaticsPassword = Option.none →
      resultSuccess (dispatchTool env "get_weather_data" args conversation events).1 =
        some false) ∧
    (∀ status text body, decide (status = 200) = false →
      env.httpGetJson (env.meteomaticsApiUrl.getD "https://api.meteomatics.com" ++ "/"
          ++ pyStr (pyArgGet args "datetime") ++ "/" ++ pyStr (pyArgGet args "parameters")
          ++ "/" ++ pyStr (pyArgGet args "coordinates") ++ "/json") =
        .resp status text body →
      resultSuccess (dispatchTool env "get_weather_data" args conversation events).1 =
        some false) ∧
    (∀ conv : Conv,
      resultSuccess (dispatchTool env "save_event" args (some conv) events).1 = some false) := by
  refine ⟨dispatchTool_success_bool env functionName args conversation events,
    ?_, ?_, ?_, ?_, ?_, ?_⟩
  · intro hun
    have h1 : ¬ functionName = "save_event" := by
      intro he; subst he; exact absurd hun (by decide)
    have h2 : ¬ functionName = "get_coordinates_from_address" := by
      intro he; subst he; exact absurd hun (by decide)
    have h3 : ¬ functionName = "get_current_datetime" := by
      intro he; subst he; exact absurd hun (by decide)
    have h4 : ¬ functionName = "get_weather_data" := by
      intro he; subst he; exact absurd hun (by decide)
    unfold dispatchTool
    rw [if_neg h1, if_neg h2, if_neg h3, if_neg h4]
  · intro hkey
    unfold dispatchTool
    rw [if_neg (by decide), if_pos rfl, hkey]
    rfl
  · intro hgeo
    unfold dispatchTool
    rw [if_neg (by decide), if_pos rfl]
    cases hk : env.googleMapsApiKey with
    | none => rfl
    | some k =>
      dsimp only
      rw [hgeo]
      rfl
  · intro hcred
    unfold dispatchTool
    rw [if_neg (by decide), if_neg (by decide), if_neg (by decide), if_pos rfl]
    cases hu : env.meteomaticsUsername with
    | none => rfl
    | some u =>
      cases hp : env.meteomaticsPassword with
      | none => rfl
      | some p =>
        rcases hcred with hc | hc
        · rw [hu] at hc; cases hc
        · rw [hp] at hc; cases hc
  · intro status text body hst hhttp
    unfold dispatchTool
    rw [if_neg (by decide), if_neg (by decide), if_neg (by decide), if_pos rfl]
    cases hu : env.meteomaticsUsername with
    | none => rfl
    | some u =>
      cases hp : env.meteomaticsPassword with
      | none => rfl
      | some p =>
        dsimp only
        rw [hhttp]
        dsimp only
        rw [if_neg (of_decide_eq_false hst)]
        rfl
  · intro conv
    unfold dispatchTool
    rw [if_pos rfl]
    exact (saveEvent_false_and_pure env conv args events).1

/-- A concrete environment with all credentials present, an empty
geocoding result, and a weather provider answering 500. -/
def stubEnv2 : Env where
  googleApiKey := some "k"
  googleMapsApiKey := some "mk"
  meteomaticsUsername := some "u"
  meteomaticsPassword := some "p"
  meteomaticsApiUrl := Option.none
  nowIso := "2025-10-05T15:00:00Z"
  parseIsoDatetime := fun _ => Option.none
  jsonLoads := fun _ => Option.none
  literalEval := fun _ => Option.none
  geocode := fun _ => .ok []
  httpGetJson := fun _ => .resp 500 "Internal" Option.none

/-- C5 witness: the dispatch failure cases evaluated concretely — unknown
name, missing geocoding key, empty geocoding result, missing weather
credentials, a 500 weather response, and a `save_event` call. -/
theorem c5_witness :
    dispatchTool stubEnv "foo" .nil Option.none [] =
      (toolErr ("Función \x27" ++ "foo" ++ "\x27 no reconocida"), []) ∧
    resultSuccess (dispatchTool stubEnv "get_coordinates_from_address" .nil
      Option.none []).1 = some false ∧
    resultSuccess (dispatchTool stubEnv2 "get_coordinates_from_address" .nil
      Option.none []).1 = some false ∧
    resultSuccess (dispatchTool stubEnv "get_weather_data" .nil Option.none []).1 =
      some false ∧
    resultSuccess (dispatchTool stubEnv2 "get_weather_data" .nil Option.none []).1 =
      some false ∧
    resultSuccess (dispatchTool stubEnv "save_event" .nil (some ⟨1, 1⟩) []).1 =
      some false :=
  ⟨(c5_dispatch_never_raises stubEnv "foo" .nil Option.none []).2.1 (by decide),
   (c5_dispatch_never_raises stubEnv "x" .nil Option.none []).2.2.1 rfl,
   (c5_dispatch_never_raises stubEnv2 "x" .nil Option.none []).2.2.2.1 rfl,
   (c5_dispatch_never_raises stubEnv "x" .nil Option.none []).2.2.2.2.1 (Or.inl rfl),
   (c5_dispatch_never_raises stubEnv2 "x" .nil Option.none []).2.2.2.2.2.1
     500 "Internal" Option.none (by decide) rfl,
   (c5_dispatch_never_raises stubEnv "x" .nil Option.none []).2.2.2.2.2.2 ⟨1, 1⟩⟩

/-- C9 amended: when `process_user_message` raises, the persisted state is
not always unchanged — the user message is persisted before the tool loop
runs.  Precisely: on any failing run the events table is unchanged; a
validation failure (the invalid-input error) leaves the persisted messages
unchanged; an orchestration failure with the model client unavailable
(missing `GOOGLE_API_KEY`, raised before anything is persisted) leaves
them unchanged; and an orchestration failure after client initialization
(model-endpoint failure during the loop) leaves them extended by exactly
the one user turn.  No assistant turn and no tool content is ever
persisted on failure. -/
theorem c9_amended (env : Env) (model : Nat → ModelBehavior) (fuel : Nat) (conv : Conv)
    (persisted : List PMsg) (events : List EventRow) (msg : String)
    (e : PErr) (st : List PMsg) (ev : List EventRow)
    (h : processUserMessage env model fuel conv persisted events msg =
      some (.error e, st, ev)) :
    ev = events ∧
    (∀ s, e = PErr.invalidInput s → st = persisted) ∧
    (∀ s, e = PErr.orchestration s → env.googleApiKey = Option.none → st = persisted) ∧
    (∀ s k, e = PErr.orchestration s → env.googleApiKey = some k →
      st = persisted ++ [⟨"user", msg⟩]) := by
  unfold processUserMessage at h
  split at h
  · simp only [Option.some.injEq, Prod.mk.injEq, Except.error.injEq] at h
    obtain ⟨he, hst, hev⟩ := h
    subst he
    refine ⟨hev.symm, fun s hs => hst.symm, fun s hs hk => ?_, fun s k hs hk => ?_⟩
    · simp at hs
    · simp at hs
  · split at h
    · next heqk =>
      simp only [Option.some.injEq, Prod.mk.injEq, Except.error.injEq] at h
      obtain ⟨he, hst, hev⟩ := h
      subst he
      refine ⟨hev.symm, fun s hs => ?_, fun s hs hk => hst.symm, fun s k hs hk => ?_⟩
      · simp at hs
      · rw [heqk] at hk
        cases hk
    · next k0 heqk =>
      dsimp only at h
      split at h
      · exact absurd h (by simp)
      · next heql =>
        simp only [Option.some.injEq, Prod.mk.injEq, Except.error.injEq] at h
        obtain ⟨he, hst, hev⟩ := h
        subst he
        have hevents := toolLoop_events_eq env model conv fuel 0 _ _ heql
        refine ⟨?_, fun s hs => ?_, fun s hs hk => ?_, fun s k hs hk => hst.symm⟩
        · rw [← hev]
          exact hevents
        · simp at hs
        · rw [heqk] at hk
          cases hk
      · exact absurd h (by simp)

/-- C10: after every successful `process_user_message` call the persisted
sequence is extended by exactly one user turn followed by one assistant
turn, so the alternation invariant is preserved; the events table is
unchanged and tool-call and tool-result contents live only in the
in-memory request list, never in the persisted messages. -/
theorem c10_turn_pairing (env : Env) (model : Nat → ModelBehavior) (fuel : Nat)
    (conv : Conv) (persisted : List PMsg) (events : List EventRow) (msg : String)
    (reply mood : String) (st : List PMsg) (ev : List EventRow)
    (h : processUserMessage env model fuel conv persisted events msg =
      some (.ok ⟨reply, mood⟩, st, ev)) :
    st = persisted ++ [⟨"user", msg⟩, ⟨"assistant", reply⟩] ∧
    ev = events ∧
    (wellFormedHistory persisted = true → wellFormedHistory st = true) := by
  unfold processUserMessage at h
  split at h
  · simp at h
  · split at h
    · simp at h
    · dsimp only at h
      split at h
      · exact absurd h (by simp)
      · exact absurd h (by simp)
      · next heq =>
        simp only [Option.some.injEq, Prod.mk.injEq, Except.ok.injEq, AgentResult.mk.injEq] at h
        have he := toolLoop_events_eq env model conv fuel 0 _ _ heq
        have hst : st = persisted ++ [⟨"user", msg⟩, ⟨"assistant", reply⟩] := by
          rw [← h.2.1]
          simp [h.1.1]
        refine ⟨hst, ?_, ?_⟩
        · rw [← h.2.2]
          exact he
        · intro hwf
          rw [hst]
          exact wellFormedHistory_append msg reply persisted hwf

/-- C9 counterexample: a model-endpoint failure on the first call leaves
the conversation changed — the user message was already persisted — so the
claim that the persisted state is left unchanged whenever the orchestrator
raises is false. -/
theorem c9_counterexample :
    processUserMessage stubEnv raiseModel 1 ⟨1, 1⟩ [] [] "hola" =
      some (.error (.orchestration "Error al usar Google Gemini: boom"),
        [⟨"user", "hola"⟩], []) ∧
    decide (([⟨"user", "hola"⟩] : List PMsg) = ([] : List PMsg)) = false :=
  ⟨by decide, by decide⟩

/-- C9 witness: the amended statement evaluated on a concrete raising
run — the events table unchanged and exactly the one user turn appended
after a model-endpoint failure with the client key present. -/
theorem c9_witness :
    ([] : List EventRow) = [] ∧
    ([⟨"user", "hola"⟩] : List PMsg) = [] ++ [⟨"user", "hola"⟩] :=
  And.intro
    (c9_amended stubEnv raiseModel 1 ⟨1, 1⟩ [] [] "hola"
      (.orchestration "Error al usar Google Gemini: boom") [⟨"user", "hola"⟩] []
      (by decide)).1
    ((c9_amended stubEnv raiseModel 1 ⟨1, 1⟩ [] [] "hola"
      (.orchestration "Error al usar Google Gemini: boom") [⟨"user", "hola"⟩] []
      (by decide)).2.2.2 "Error al usar Google Gemini: boom" "k" rfl rfl)

/-- C10 witness: the turn-pairing statement evaluated on a concrete
successful run. -/
theorem c10_witness :
    ([⟨"user", "hola"⟩, ⟨"assistant", "listo"⟩] : List PMsg) =
      [] ++ [⟨"user", "hola"⟩, ⟨"assistant", "listo"⟩] ∧
    ([] : List EventRow) = [] ∧
    (wellFormedHistory [] = true →
      wellFormedHistory [⟨"user", "hola"⟩, ⟨"assistant", "listo"⟩] = true) :=
  c10_turn_pairing stubEnv stubModelText 1 ⟨1, 1⟩ [] [] "hola" "listo" "neutral"
    [⟨"user", "hola"⟩, ⟨"assistant", "listo"⟩] [] (by decide)
